import Mathlib

/-!
# Banking Management System — ledger model

A shallow embedding of the ledger subsystem of the Banking Management
System repository (`app/models.py`, `app/routes/user_routes.py`,
`app/forms.py`).  Balances and transaction amounts are integers in minor
currency units (cents), exactly as in the source (`Account.balance` and
`Transaction.amount` are integer columns storing cents).  The database
session is modelled as an explicit `BankState`; `db.session.rollback()`
on a failure path returns the original state, `db.session.commit()` is
modelled by a `commitOk` flag (`true` = the commit succeeds, `false` =
it raises and the route rolls back).
-/

namespace Banking

/-- `app/models.py` `Account`: id, owner, public number, type, balance in
cents, frozen flag. -/
structure Account where
  id : Nat
  userId : Nat
  accountNumber : String
  accountType : String
  balance : Int
  isFrozen : Bool
deriving DecidableEq, Repr

/-- `app/models.py` `Transaction`: optional source and destination account
references, amount in cents, type string, description, timestamp. -/
structure Transaction where
  fromAccountId : Option Nat
  toAccountId : Option Nat
  amount : Int
  transactionType : String
  description : String
  timestamp : Nat
deriving DecidableEq, Repr

/-- The persistent state the routes read and mutate: the `accounts` table
and the append-only `transactions` table. -/
structure BankState where
  accounts : List Account
  transactions : List Transaction
deriving DecidableEq, Repr

/-- `Account.query.get(account_id)` — lookup by primary key. -/
def findAcc (accs : List Account) (i : Nat) : Option Account :=
  accs.find? (fun a => a.id == i)

/-- `Account.query.get` on the state. -/
def findById (s : BankState) (i : Nat) : Option Account :=
  findAcc s.accounts i

/-- `Account.query.filter_by(account_number=n).first()`. -/
def findByNumber (s : BankState) (n : String) : Option Account :=
  s.accounts.find? (fun a => a.accountNumber == n)

/-- The balance of the account row with primary key `i`, when it exists. -/
def balanceOf (s : BankState) (i : Nat) : Option Int :=
  (findById s i).map (fun a => a.balance)

/-- Assigning `balance = v` to the account row with primary key `i`
(the ORM mutation `account.balance = ...` followed by a commit). -/
def setBalance (accs : List Account) (i : Nat) (v : Int) : List Account :=
  accs.map (fun a => if a.id = i then { a with balance := v } else a)

/-- Error outcomes a request can end in.  Form-validation errors
(`notAValidChoice`, `fieldRequired`, `invalidLength`, `notDigits`,
`amountOutOfRange`, and the form-level destination checks) come from the
WTForms validators configured in `app/forms.py`; the rest are the flash
messages of the route bodies in `app/routes/user_routes.py`. -/
inductive OpError where
  | noActiveAccounts
  | notAValidChoice
  | fieldRequired
  | invalidLength
  | notDigits
  | destinationNotFound
  | destinationFrozen
  | amountOutOfRange
  | accountNotFound
  | invalidAccount
  | sourceFrozen
  | selfTransferNotAllowed
  | insufficientFunds
  | persistenceError
deriving DecidableEq, Repr

/-- Input to the transfer route: selected source account id, destination
account number as typed, amount already converted to cents
(`int(form.amount.data * 100)`), optional description. -/
structure TransferRequest where
  fromAccountId : Nat
  toAccountNumber : String
  amountCents : Int
  description : Option String
deriving DecidableEq, Repr

/-- Input to the deposit and withdraw routes: selected account id and
amount in cents, optional description. -/
structure AccountOpRequest where
  accountId : Nat
  amountCents : Int
  description : Option String
deriving DecidableEq, Repr

/-- An operation's result: the list of reported errors (empty on
success) and the state after the request (original state on every
failure path, because nothing was committed / the session rolled back). -/
abbrev OpResult := List OpError × BankState

/-! ## Route bodies (the code run once `form.validate_on_submit()` passed)

`transferBody` is `user_routes.py` lines 131–198, `depositBody` lines
358–390, `withdrawBody` lines 424–461.  A `None` result of
`Account.query.get` makes the attribute access raise, which the
surrounding `except` turns into an error flash with no state change. -/

/-- The transfer route body: ownership check, source frozen check,
destination lookup by number, destination frozen check, self-transfer
check, balance check, then debit + credit + transaction insert committed
together (rolled back together if the commit raises). -/
def transferBody (s : BankState) (u : Nat) (r : TransferRequest) (now : Nat)
    (commitOk : Bool) : OpResult :=
  match findById s r.fromAccountId with
  | none => ([.accountNotFound], s)
  | some fromAcc =>
    if fromAcc.userId ≠ u then ([.invalidAccount], s)
    else if fromAcc.isFrozen then ([.sourceFrozen], s)
    else
      match findByNumber s r.toAccountNumber with
      | none => ([.destinationNotFound], s)
      | some toAcc =>
        if toAcc.isFrozen then ([.destinationFrozen], s)
        else if fromAcc.id = toAcc.id then ([.selfTransferNotAllowed], s)
        else if fromAcc.balance < r.amountCents then ([.insufficientFunds], s)
        else if commitOk then
          ([], { accounts := setBalance (setBalance s.accounts fromAcc.id
                   (fromAcc.balance - r.amountCents)) toAcc.id
                   (toAcc.balance + r.amountCents)
                 transactions :=
                   { fromAccountId := some fromAcc.id
                     toAccountId := some toAcc.id
                     amount := r.amountCents
                     transactionType := "transfer"
                     description := r.description.getD
                       ("Transfer to " ++ toAcc.accountNumber)
                     timestamp := now } :: s.transactions })
        else ([.persistenceError], s)

/-- The deposit route body: ownership check, then credit + transaction
insert committed together.  No frozen-account check appears in the body. -/
def depositBody (s : BankState) (u : Nat) (r : AccountOpRequest) (now : Nat)
    (commitOk : Bool) : OpResult :=
  match findById s r.accountId with
  | none => ([.accountNotFound], s)
  | some acc =>
    if acc.userId ≠ u then ([.invalidAccount], s)
    else if commitOk then
      ([], { accounts := setBalance s.accounts acc.id (acc.balance + r.amountCents)
             transactions :=
               { fromAccountId := none
                 toAccountId := some acc.id
                 amount := r.amountCents
                 transactionType := "deposit"
                 description := r.description.getD "Cash deposit"
                 timestamp := now } :: s.transactions })
    else ([.persistenceError], s)

/-- The withdraw route body: ownership check, balance check, then debit +
transaction insert committed together.  No frozen-account check appears
in the body. -/
def withdrawBody (s : BankState) (u : Nat) (r : AccountOpRequest) (now : Nat)
    (commitOk : Bool) : OpResult :=
  match findById s r.accountId with
  | none => ([.accountNotFound], s)
  | some acc =>
    if acc.userId ≠ u then ([.invalidAccount], s)
    else if acc.balance < r.amountCents then ([.insufficientFunds], s)
    else if commitOk then
      ([], { accounts := setBalance s.accounts acc.id (acc.balance - r.amountCents)
             transactions :=
               { fromAccountId := some acc.id
                 toAccountId := none
                 amount := r.amountCents
                 transactionType := "withdrawal"
                 description := r.description.getD "Cash withdrawal"
                 timestamp := now } :: s.transactions })
    else ([.persistenceError], s)

/-! ## Form validation (`app/forms.py`, run by `form.validate_on_submit()`)

Each transfer/deposit/withdraw route first builds the select-field
choices from the requester's non-frozen accounts
(`Account.query.filter_by(user_id=current_user.id, is_frozen=False)`),
redirects away if that list is empty, and then validates the form.  The
select field rejects a value that is not among its choices; the
destination-number field of `TransferForm` runs `DataRequired`,
`Length(10, 10)` and the inline validator `validate_to_account_id`
(digits check, existence check, frozen check); the amount fields run
`DataRequired` and a `NumberRange` (₹0.01–₹1,000,000 for transfers,
₹0.01–₹100,000 for deposits and withdrawals, i.e. 1–100000000 and
1–10000000 cents).  Validation errors are collected per field in
definition order; any error re-renders the form and no route body runs. -/

/-- The requester's non-frozen accounts, i.e. the select-field choices. -/
def activeAccounts (s : BankState) (u : Nat) : List Account :=
  s.accounts.filter (fun a => a.userId == u && !a.isFrozen)

/-- Select-field validation: the submitted account id must be one of the
offered choices. -/
def accountChoiceErrors (s : BankState) (u : Nat) (accId : Nat) : List OpError :=
  if accId ∈ (activeAccounts s u).map (fun a => a.id) then [] else [.notAValidChoice]

/-- Amount-field validation: `DataRequired` (a zero amount is falsy and
stops the chain) then `NumberRange`, with bounds in cents. -/
def amountFieldErrors (lo hi a : Int) : List OpError :=
  if a = 0 then [.fieldRequired]
  else if lo ≤ a ∧ a ≤ hi then [] else [.amountOutOfRange]

/-- Destination-number field validation of `TransferForm`: `DataRequired`
stops on an empty value; otherwise `Length(min=10, max=10)` and the
inline `validate_to_account_id` (digits-only, account exists, account
not frozen) each contribute their error. -/
def toAccountFieldErrors (s : BankState) (num : String) : List OpError :=
  if num = "" then [.fieldRequired]
  else
    (if num.length = 10 then [] else [.invalidLength]) ++
    (if !(num.data.all Char.isDigit) then [.notDigits]
     else
       match findByNumber s num with
       | none => [.destinationNotFound]
       | some d => if d.isFrozen then [.destinationFrozen] else [])

/-- All form errors of a transfer request, in field-definition order. -/
def transferFormErrors (s : BankState) (u : Nat) (r : TransferRequest) : List OpError :=
  accountChoiceErrors s u r.fromAccountId ++
  toAccountFieldErrors s r.toAccountNumber ++
  amountFieldErrors 1 100000000 r.amountCents

/-- All form errors of a deposit or withdraw request. -/
def accountOpFormErrors (s : BankState) (u : Nat) (r : AccountOpRequest) : List OpError :=
  accountChoiceErrors s u r.accountId ++
  amountFieldErrors 1 10000000 r.amountCents

/-! ## Full request pipeline: choices guard, form validation, route body -/

/-- The transfer route end to end: redirect when the requester has no
active account, re-render on form errors, else run the body. -/
def transferStep (s : BankState) (u : Nat) (r : TransferRequest) (now : Nat)
    (commitOk : Bool) : OpResult :=
  if activeAccounts s u = [] then ([.noActiveAccounts], s)
  else if transferFormErrors s u r = [] then transferBody s u r now commitOk
  else (transferFormErrors s u r, s)

/-- The deposit route end to end. -/
def depositStep (s : BankState) (u : Nat) (r : AccountOpRequest) (now : Nat)
    (commitOk : Bool) : OpResult :=
  if activeAccounts s u = [] then ([.noActiveAccounts], s)
  else if accountOpFormErrors s u r = [] then depositBody s u r now commitOk
  else (accountOpFormErrors s u r, s)

/-- The withdraw route end to end. -/
def withdrawStep (s : BankState) (u : Nat) (r : AccountOpRequest) (now : Nat)
    (commitOk : Bool) : OpResult :=
  if activeAccounts s u = [] then ([.noActiveAccounts], s)
  else if accountOpFormErrors s u r = [] then withdrawBody s u r now commitOk
  else (accountOpFormErrors s u r, s)

/-! ## Operation sequences -/

/-- One inbound ledger request: which route, the requester, the form
data, the request time, and whether the commit succeeds. -/
inductive Op where
  | deposit (u : Nat) (r : AccountOpRequest) (now : Nat) (commitOk : Bool)
  | withdraw (u : Nat) (r : AccountOpRequest) (now : Nat) (commitOk : Bool)
  | transfer (u : Nat) (r : TransferRequest) (now : Nat) (commitOk : Bool)
deriving Repr

/-- The amount (in cents) a request asks to move. -/
def Op.amountCents : Op → Int
  | .deposit _ r _ _ => r.amountCents
  | .withdraw _ r _ _ => r.amountCents
  | .transfer _ r _ _ => r.amountCents

/-- The state after serving one request. -/
def applyOp (s : BankState) : Op → BankState
  | .deposit u r now c => (depositStep s u r now c).2
  | .withdraw u r now c => (withdrawStep s u r now c).2
  | .transfer u r now c => (transferStep s u r now c).2

/-- The state after serving a sequence of requests. -/
def applyOps (s : BankState) : List Op → BankState
  | [] => s
  | op :: ops => applyOps (applyOp s op) ops

/-! ## `Account.get_all_transactions` (`app/models.py` lines 187–197) -/

/-- `sorted(sent + received, key=lambda x: x.timestamp, reverse=True)`:
the union of transactions sent from and received by the account, sorted
by timestamp descending (a stable merge sort, as Python's `sorted`). -/
def getAllTransactions (s : BankState) (accId : Nat) : List Transaction :=
  let sent := s.transactions.filter (fun t => t.fromAccountId == some accId)
  let received := s.transactions.filter (fun t => t.toAccountId == some accId)
  (sent ++ received).mergeSort (fun a b => b.timestamp ≤ a.timestamp)

/-! ## `generate_account_number` (`app/models.py` lines 231–245) -/

/-- One candidate: `''.join([str(random.randint(0, 9)) for _ in range(10)])`,
with the random draws supplied as a function from position to digit. -/
def mkAccountNum (draw : Nat → Fin 10) : String :=
  String.mk ((List.range 10).map (fun i => Char.ofNat (48 + (draw i).val)))

/-- The retry loop: generate a candidate, return it unless an account
with that number already exists, else retry with the next draws.  The
unbounded `while True` is modelled by recursion over the (finite) list
of pre-drawn random sources. -/
def generateAccountNumber (s : BankState) : List (Nat → Fin 10) → Option String
  | [] => none
  | draw :: rest =>
    let accountNum := mkAccountNum draw
    match findByNumber s accountNum with
    | some _ => generateAccountNumber s rest
    | none => some accountNum

/-! ## Lookup and update lemmas -/

theorem findAcc_eq_some_id {accs : List Account} {i : Nat} {a : Account}
    (h : findAcc accs i = some a) : a.id = i := by
  have := List.find?_some h
  simpa using this

theorem mem_of_findAcc {accs : List Account} {i : Nat} {a : Account}
    (h : findAcc accs i = some a) : a ∈ accs :=
  List.mem_of_find?_eq_some h

theorem findByNumber_eq_some_number {s : BankState} {n : String} {a : Account}
    (h : findByNumber s n = some a) : a.accountNumber = n := by
  have := List.find?_some h
  simpa using this

theorem mem_of_findByNumber {s : BankState} {n : String} {a : Account}
    (h : findByNumber s n = some a) : a ∈ s.accounts :=
  List.mem_of_find?_eq_some h

theorem findAcc_setBalance (accs : List Account) (i : Nat) (v : Int) (j : Nat) :
    findAcc (setBalance accs i v) j =
      (findAcc accs j).map (fun a => if a.id = i then { a with balance := v } else a) := by
  unfold findAcc setBalance
  rw [List.find?_map]
  have hp : ((fun a => a.id == j) ∘ fun a : Account =>
      if a.id = i then { a with balance := v } else a) = (fun a : Account => a.id == j) := by
    funext a
    by_cases h : a.id = i <;> simp [h]
  rw [hp]

theorem findAcc_setBalance_self {accs : List Account} {i : Nat} {a : Account} (v : Int)
    (h : findAcc accs i = some a) :
    findAcc (setBalance accs i v) i = some { a with balance := v } := by
  rw [findAcc_setBalance, h]
  simp [findAcc_eq_some_id h]

theorem findAcc_setBalance_ne {accs : List Account} {i j : Nat} (v : Int) (hne : j ≠ i) :
    findAcc (setBalance accs i v) j = findAcc accs j := by
  rw [findAcc_setBalance]
  cases hfind : findAcc accs j with
  | none => rfl
  | some a =>
    have hj := findAcc_eq_some_id hfind
    simp [hj, hne]

theorem findAcc_of_mem_nodup {accs : List Account}
    (hnd : (accs.map (fun a => a.id)).Nodup) {a : Account} (ha : a ∈ accs) :
    findAcc accs a.id = some a := by
  induction accs with
  | nil => cases ha
  | cons b t ih =>
    simp only [List.map_cons, List.nodup_cons] at hnd
    rcases List.mem_cons.mp ha with rfl | hat
    · simp [findAcc, List.find?_cons]
    · have hne : ¬ (b.id = a.id) := fun he => hnd.1 (he ▸ List.mem_map.mpr ⟨a, hat, rfl⟩)
      simpa [findAcc, List.find?_cons, hne] using ih hnd.2 hat

theorem eq_of_mem_nodup_id {accs : List Account}
    (hnd : (accs.map (fun a => a.id)).Nodup) {a b : Account}
    (ha : a ∈ accs) (hb : b ∈ accs) (hab : a.id = b.id) : a = b := by
  have h1 := findAcc_of_mem_nodup hnd ha
  have h2 := findAcc_of_mem_nodup hnd hb
  rw [hab, h2] at h1
  exact (Option.some.injEq ..).mp h1.symm

theorem mem_setBalance {accs : List Account} {i : Nat} {v : Int} {b : Account}
    (hb : b ∈ setBalance accs i v) :
    b ∈ accs ∨ ∃ a, a ∈ accs ∧ b = { a with balance := v } := by
  unfold setBalance at hb
  rcases List.mem_map.mp hb with ⟨a, ha, rfl⟩
  by_cases h : a.id = i
  · right; exact ⟨a, ha, by simp [h]⟩
  · left; simpa [h] using ha

theorem amountFieldErrors_eq_nil {lo hi a : Int}
    (h : amountFieldErrors lo hi a = []) : lo ≤ a ∧ a ≤ hi := by
  unfold amountFieldErrors at h
  split at h
  · cases h
  · split at h
    · assumption
    · cases h

theorem accountChoiceErrors_eq_nil {s : BankState} {u : Nat} {i : Nat}
    (h : accountChoiceErrors s u i = []) :
    i ∈ (activeAccounts s u).map (fun a => a.id) := by
  unfold accountChoiceErrors at h
  split at h
  · assumption
  · cases h

theorem transferFormErrors_eq_nil {s : BankState} {u : Nat} {r : TransferRequest}
    (h : transferFormErrors s u r = []) :
    r.fromAccountId ∈ (activeAccounts s u).map (fun a => a.id) ∧
      1 ≤ r.amountCents ∧ r.amountCents ≤ 100000000 := by
  unfold transferFormErrors at h
  simp only [List.append_eq_nil] at h
  exact ⟨accountChoiceErrors_eq_nil h.1.1, amountFieldErrors_eq_nil h.2⟩

theorem accountOpFormErrors_eq_nil {s : BankState} {u : Nat} {r : AccountOpRequest}
    (h : accountOpFormErrors s u r = []) :
    r.accountId ∈ (activeAccounts s u).map (fun a => a.id) ∧
      1 ≤ r.amountCents ∧ r.amountCents ≤ 10000000 := by
  unfold accountOpFormErrors at h
  simp only [List.append_eq_nil] at h
  exact ⟨accountChoiceErrors_eq_nil h.1, amountFieldErrors_eq_nil h.2⟩

/-- Exhaustive description of the transfer pipeline: every failing run
returns the original state with a non-empty error list, and every
successful run passed each precondition and produced exactly the
debit + credit + single-record state. -/
theorem transferStep_cases (s : BankState) (u : Nat) (r : TransferRequest)
    (now : Nat) (c : Bool) :
    ((transferStep s u r now c).1 ≠ [] ∧ (transferStep s u r now c).2 = s) ∨
    ((transferStep s u r now c).1 = [] ∧ c = true ∧
      ∃ src dst,
        findById s r.fromAccountId = some src ∧
        findByNumber s r.toAccountNumber = some dst ∧
        src.userId = u ∧ src.isFrozen = false ∧ dst.isFrozen = false ∧
        src.id ≠ dst.id ∧ 1 ≤ r.amountCents ∧ r.amountCents ≤ 100000000 ∧
        r.amountCents ≤ src.balance ∧
        (transferStep s u r now c).2 =
          { accounts := setBalance (setBalance s.accounts src.id
                (src.balance - r.amountCents)) dst.id (dst.balance + r.amountCents)
            transactions :=
              { fromAccountId := some src.id
                toAccountId := some dst.id
                amount := r.amountCents
                transactionType := "transfer"
                description := r.description.getD ("Transfer to " ++ dst.accountNumber)
                timestamp := now } :: s.transactions }) := by
  unfold transferStep
  split
  · exact Or.inl ⟨by simp, rfl⟩
  split
  case isFalse.isFalse hform => exact Or.inl ⟨hform, rfl⟩
  case isFalse.isTrue hactive hform =>
    obtain ⟨hmem, hlo, hhi⟩ := transferFormErrors_eq_nil hform
    unfold transferBody
    split
    · exact Or.inl ⟨by simp, rfl⟩
    rename_i src hsrc
    split
    · exact Or.inl ⟨by simp, rfl⟩
    rename_i hown
    split
    · exact Or.inl ⟨by simp, rfl⟩
    rename_i hsfz
    split
    · exact Or.inl ⟨by simp, rfl⟩
    rename_i dst hdst
    split
    · exact Or.inl ⟨by simp, rfl⟩
    rename_i hdfz
    split
    · exact Or.inl ⟨by simp, rfl⟩
    rename_i hself
    split
    · exact Or.inl ⟨by simp, rfl⟩
    rename_i hbal
    split
    · rename_i hc
      exact Or.inr ⟨rfl, hc, src, dst, hsrc, hdst, not_not.mp hown,
        by simpa using hsfz, by simpa using hdfz, hself, hlo, hhi,
        Int.not_lt.mp hbal, rfl⟩
    · exact Or.inl ⟨by simp, rfl⟩

/-- Exhaustive description of the deposit pipeline. -/
theorem depositStep_cases (s : BankState) (u : Nat) (r : AccountOpRequest)
    (now : Nat) (c : Bool) :
    ((depositStep s u r now c).1 ≠ [] ∧ (depositStep s u r now c).2 = s) ∨
    ((depositStep s u r now c).1 = [] ∧ c = true ∧
      ∃ acc,
        findById s r.accountId = some acc ∧ acc.userId = u ∧
        1 ≤ r.amountCents ∧ r.amountCents ≤ 10000000 ∧
        (depositStep s u r now c).2 =
          { accounts := setBalance s.accounts acc.id (acc.balance + r.amountCents)
            transactions :=
              { fromAccountId := none
                toAccountId := some acc.id
                amount := r.amountCents
                transactionType := "deposit"
                description := r.description.getD "Cash deposit"
                timestamp := now } :: s.transactions }) := by
  unfold depositStep
  split
  · exact Or.inl ⟨by simp, rfl⟩
  split
  case isFalse.isFalse hform => exact Or.inl ⟨hform, rfl⟩
  case isFalse.isTrue hactive hform =>
    obtain ⟨hmem, hlo, hhi⟩ := accountOpFormErrors_eq_nil hform
    unfold depositBody
    split
    · exact Or.inl ⟨by simp, rfl⟩
    rename_i acc hacc
    split
    · exact Or.inl ⟨by simp, rfl⟩
    rename_i hown
    split
    · rename_i hc
      exact Or.inr ⟨rfl, hc, acc, hacc, not_not.mp hown, hlo, hhi, rfl⟩
    · exact Or.inl ⟨by simp, rfl⟩

/-- Exhaustive description of the withdraw pipeline. -/
theorem withdrawStep_cases (s : BankState) (u : Nat) (r : AccountOpRequest)
    (now : Nat) (c : Bool) :
    ((withdrawStep s u r now c).1 ≠ [] ∧ (withdrawStep s u r now c).2 = s) ∨
    ((withdrawStep s u r now c).1 = [] ∧ c = true ∧
      ∃ acc,
        findById s r.accountId = some acc ∧ acc.userId = u ∧
        1 ≤ r.amountCents ∧ r.amountCents ≤ 10000000 ∧
        r.amountCents ≤ acc.balance ∧
        (withdrawStep s u r now c).2 =
          { accounts := setBalance s.accounts acc.id (acc.balance - r.amountCents)
            transactions :=
              { fromAccountId := some acc.id
                toAccountId := none
                amount := r.amountCents
                transactionType := "withdrawal"
                description := r.description.getD "Cash withdrawal"
                timestamp := now } :: s.transactions }) := by
  unfold withdrawStep
  split
  · exact Or.inl ⟨by simp, rfl⟩
  split
  case isFalse.isFalse hform => exact Or.inl ⟨hform, rfl⟩
  case isFalse.isTrue hactive hform =>
    obtain ⟨hmem, hlo, hhi⟩ := accountOpFormErrors_eq_nil hform
    unfold withdrawBody
    split
    · exact Or.inl ⟨by simp, rfl⟩
    rename_i acc hacc
    split
    · exact Or.inl ⟨by simp, rfl⟩
    rename_i hown
    split
    · exact Or.inl ⟨by simp, rfl⟩
    rename_i hbal
    split
    · rename_i hc
      exact Or.inr ⟨rfl, hc, acc, hacc, not_not.mp hown, hlo, hhi,
        Int.not_lt.mp hbal, rfl⟩
    · exact Or.inl ⟨by simp, rfl⟩

/-- Shared helper: a successful transfer found both accounts, debited the
source by the amount, credited the destination by the amount, and
prepended exactly one transfer record. -/
theorem transferStep_success_effects (s : BankState) (u : Nat) (r : TransferRequest)
    (now : Nat) (c : Bool)
    (hnd : (s.accounts.map (fun a => a.id)).Nodup)
    (hsucc : (transferStep s u r now c).1 = []) :
    ∃ src dst,
      findById s r.fromAccountId = some src ∧
      findByNumber s r.toAccountNumber = some dst ∧
      src.id ≠ dst.id ∧
      balanceOf s src.id = some src.balance ∧
      balanceOf s dst.id = some dst.balance ∧
      balanceOf (transferStep s u r now c).2 src.id = some (src.balance - r.amountCents) ∧
      balanceOf (transferStep s u r now c).2 dst.id = some (dst.balance + r.amountCents) ∧
      (transferStep s u r now c).2.transactions =
        { fromAccountId := some src.id
          toAccountId := some dst.id
          amount := r.amountCents
          transactionType := "transfer"
          description := r.description.getD ("Transfer to " ++ dst.accountNumber)
          timestamp := now } :: s.transactions := by
  rcases transferStep_cases s u r now c with ⟨hne, _⟩ |
    ⟨_, hc, src, dst, hsrc, hdst, hown, hsfz, hdfz, hne, hlo, hhi, hbal, hstate⟩
  · exact absurd hsucc hne
  have hid : src.id = r.fromAccountId := findAcc_eq_some_id hsrc
  have hsrcid : findAcc s.accounts src.id = some src := by rw [hid]; exact hsrc
  have hdstid : findAcc s.accounts dst.id = some dst :=
    findAcc_of_mem_nodup hnd (mem_of_findByNumber hdst)
  refine ⟨src, dst, hsrc, hdst, hne, ?_, ?_, ?_, ?_, ?_⟩
  · simp [balanceOf, findById, hsrcid]
  · simp [balanceOf, findById, hdstid]
  · rw [hstate]
    simp only [balanceOf, findById]
    rw [findAcc_setBalance_ne _ hne, findAcc_setBalance_self _ hsrcid]
    rfl
  · rw [hstate]
    simp only [balanceOf, findById]
    rw [findAcc_setBalance_self _
      (by rw [findAcc_setBalance_ne _ (Ne.symm hne)]; exact hdstid)]
    rfl
  · rw [hstate]

/-- C1: the transfer pipeline is all-or-nothing.  If it fails anywhere —
at form validation, at any body precondition (source frozen, destination
not found, destination frozen, self-transfer, insufficient funds), or
because the commit raises — the returned state is exactly the input
state (no balance changed, no transaction record created); if it
succeeds, the debit of the source, the credit of the destination and the
insert of the single transfer record are all present in the new state. -/
theorem transfer_atomicity (s : BankState) (u : Nat) (r : TransferRequest)
    (now : Nat) (c : Bool)
    (hnd : (s.accounts.map (fun a => a.id)).Nodup) :
    ((transferStep s u r now c).1 ≠ [] → (transferStep s u r now c).2 = s) ∧
    ((transferStep s u r now c).1 = [] →
      ∃ src dst,
        findById s r.fromAccountId = some src ∧
        findByNumber s r.toAccountNumber = some dst ∧
        balanceOf (transferStep s u r now c).2 src.id = some (src.balance - r.amountCents) ∧
        balanceOf (transferStep s u r now c).2 dst.id = some (dst.balance + r.amountCents) ∧
        (transferStep s u r now c).2.transactions =
          { fromAccountId := some src.id
            toAccountId := some dst.id
            amount := r.amountCents
            transactionType := "transfer"
            description := r.description.getD ("Transfer to " ++ dst.accountNumber)
            timestamp := now } :: s.transactions) := by
  constructor
  · intro hfail
    rcases transferStep_cases s u r now c with ⟨_, hstate⟩ | ⟨hnil, _⟩
    · exact hstate
    · exact absurd hnil hfail
  · intro hsucc
    obtain ⟨src, dst, hsrc, hdst, _, _, _, h1, h2, h3⟩ :=
      transferStep_success_effects s u r now c hnd hsucc
    exact ⟨src, dst, hsrc, hdst, h1, h2, h3⟩

/-- Concrete fixtures: user 1 owns account 1 (₹50.00), user 2 owns
account 2 (₹10.00), no transaction yet. -/
def accA : Account :=
  { id := 1, userId := 1, accountNumber := "1000000001", accountType := "savings"
    balance := 5000, isFrozen := false }

def accB : Account :=
  { id := 2, userId := 2, accountNumber := "1000000002", accountType := "Current"
    balance := 1000, isFrozen := false }

def demoState : BankState := { accounts := [accA, accB], transactions := [] }

def demoTransfer : TransferRequest :=
  { fromAccountId := 1, toAccountNumber := "1000000002", amountCents := 2000
    description := none }

theorem transfer_atomicity_witness :
    ((transferStep demoState 1 demoTransfer 0 true).1 ≠ [] →
      (transferStep demoState 1 demoTransfer 0 true).2 = demoState) ∧
    ((transferStep demoState 1 demoTransfer 0 true).1 = [] →
      ∃ src dst,
        findById demoState 1 = some src ∧
        findByNumber demoState "1000000002" = some dst ∧
        balanceOf (transferStep demoState 1 demoTransfer 0 true).2 src.id =
          some (src.balance - 2000) ∧
        balanceOf (transferStep demoState 1 demoTransfer 0 true).2 dst.id =
          some (dst.balance + 2000) ∧
        (transferStep demoState 1 demoTransfer 0 true).2.transactions =
          { fromAccountId := some src.id
            toAccountId := some dst.id
            amount := 2000
            transactionType := "transfer"
            description := "Transfer to " ++ dst.accountNumber
            timestamp := 0 } :: demoState.transactions) :=
  transfer_atomicity demoState 1 demoTransfer 0 true (by decide)

/-- C2: a successful transfer of `A` cents debits the source by exactly
`A`, credits the destination by exactly `A`, conserves the sum of the
two balances, and records exactly one transfer-type transaction whose
source and destination references are the two accounts and whose amount
is `A`. -/
theorem transfer_conservation (s : BankState) (u : Nat) (r : TransferRequest)
    (now : Nat) (c : Bool)
    (hnd : (s.accounts.map (fun a => a.id)).Nodup)
    (hsucc : (transferStep s u r now c).1 = []) :
    ∃ src dst,
      findById s r.fromAccountId = some src ∧
      findByNumber s r.toAccountNumber = some dst ∧
      balanceOf s src.id = some src.balance ∧
      balanceOf s dst.id = some dst.balance ∧
      balanceOf (transferStep s u r now c).2 src.id = some (src.balance - r.amountCents) ∧
      balanceOf (transferStep s u r now c).2 dst.id = some (dst.balance + r.amountCents) ∧
      (src.balance - r.amountCents) + (dst.balance + r.amountCents) =
        src.balance + dst.balance ∧
      (transferStep s u r now c).2.transactions =
        { fromAccountId := some src.id
          toAccountId := some dst.id
          amount := r.amountCents
          transactionType := "transfer"
          description := r.description.getD ("Transfer to " ++ dst.accountNumber)
          timestamp := now } :: s.transactions := by
  obtain ⟨src, dst, hsrc, hdst, _, hb1, hb2, h1, h2, h3⟩ :=
    transferStep_success_effects s u r now c hnd hsucc
  exact ⟨src, dst, hsrc, hdst, hb1, hb2, h1, h2, by ring, h3⟩

theorem transfer_conservation_witness :
    ∃ src dst,
      findById demoState 1 = some src ∧
      findByNumber demoState "1000000002" = some dst ∧
      balanceOf demoState src.id = some src.balance ∧
      balanceOf demoState dst.id = some dst.balance ∧
      balanceOf (transferStep demoState 1 demoTransfer 0 true).2 src.id =
        some (src.balance - 2000) ∧
      balanceOf (transferStep demoState 1 demoTransfer 0 true).2 dst.id =
        some (dst.balance + 2000) ∧
      (src.balance - 2000) + (dst.balance + 2000) = src.balance + dst.balance ∧
      (transferStep demoState 1 demoTransfer 0 true).2.transactions =
        { fromAccountId := some src.id
          toAccountId := some dst.id
          amount := 2000
          transactionType := "transfer"
          description := "Transfer to " ++ dst.accountNumber
          timestamp := 0 } :: demoState.transactions :=
  transfer_conservation demoState 1 demoTransfer 0 true (by decide) (by decide)

/-- Serving a deposit preserves non-negativity of every balance. -/
theorem depositStep_nonneg (s : BankState) (u : Nat) (r : AccountOpRequest)
    (now : Nat) (c : Bool) (h0 : ∀ a ∈ s.accounts, 0 ≤ a.balance) :
    ∀ a ∈ (depositStep s u r now c).2.accounts, 0 ≤ a.balance := by
  rcases depositStep_cases s u r now c with ⟨_, hstate⟩ |
    ⟨_, _, acc, hacc, _, hlo, _, hstate⟩
  · rw [hstate]; exact h0
  · rw [hstate]
    intro b hb
    rcases mem_setBalance hb with hbmem | ⟨a, _, rfl⟩
    · exact h0 b hbmem
    · have hacc0 := h0 acc (mem_of_findAcc hacc)
      show 0 ≤ acc.balance + r.amountCents
      omega

/-- Serving a withdrawal preserves non-negativity of every balance: the
balance check rejects any amount exceeding the balance. -/
theorem withdrawStep_nonneg (s : BankState) (u : Nat) (r : AccountOpRequest)
    (now : Nat) (c : Bool) (h0 : ∀ a ∈ s.accounts, 0 ≤ a.balance) :
    ∀ a ∈ (withdrawStep s u r now c).2.accounts, 0 ≤ a.balance := by
  rcases withdrawStep_cases s u r now c with ⟨_, hstate⟩ |
    ⟨_, _, acc, hacc, _, hlo, _, hbal, hstate⟩
  · rw [hstate]; exact h0
  · rw [hstate]
    intro b hb
    rcases mem_setBalance hb with hbmem | ⟨a, _, rfl⟩
    · exact h0 b hbmem
    · show 0 ≤ acc.balance - r.amountCents
      omega

/-- Serving a transfer preserves non-negativity of every balance: the
balance check bounds the debit, and the credit only increases. -/
theorem transferStep_nonneg (s : BankState) (u : Nat) (r : TransferRequest)
    (now : Nat) (c : Bool) (h0 : ∀ a ∈ s.accounts, 0 ≤ a.balance) :
    ∀ a ∈ (transferStep s u r now c).2.accounts, 0 ≤ a.balance := by
  rcases transferStep_cases s u r now c with ⟨_, hstate⟩ |
    ⟨_, _, src, dst, hsrc, hdst, _, _, _, _, hlo, _, hbal, hstate⟩
  · rw [hstate]; exact h0
  · rw [hstate]
    intro b hb
    rcases mem_setBalance hb with hb1 | ⟨a, _, rfl⟩
    · rcases mem_setBalance hb1 with hbmem | ⟨a, _, rfl⟩
      · exact h0 b hbmem
      · show 0 ≤ src.balance - r.amountCents
        omega
    · have hdst0 := h0 dst (mem_of_findByNumber hdst)
      show 0 ≤ dst.balance + r.amountCents
      omega

/-- Serving any single request preserves non-negativity. -/
theorem applyOp_nonneg (s : BankState) (op : Op)
    (h0 : ∀ a ∈ s.accounts, 0 ≤ a.balance) :
    ∀ a ∈ (applyOp s op).accounts, 0 ≤ a.balance := by
  cases op with
  | deposit u r now c => exact depositStep_nonneg s u r now c h0
  | withdraw u r now c => exact withdrawStep_nonneg s u r now c h0
  | transfer u r now c => exact transferStep_nonneg s u r now c h0

/-- C3: starting from any state whose balances are all non-negative, no
sequence of deposit, withdraw, and transfer requests (each asking to
move a positive amount) can drive any account's balance negative: every
withdrawal or transfer whose amount exceeds the source balance is
rejected with the state unchanged, so balance ≥ 0 is an invariant of all
three operations. -/
theorem balances_nonneg (s : BankState) (ops : List Op)
    (h0 : ∀ a ∈ s.accounts, 0 ≤ a.balance)
    (hpos : ∀ op ∈ ops, 0 < op.amountCents) :
    ∀ a ∈ (applyOps s ops).accounts, 0 ≤ a.balance := by
  clear hpos
  induction ops generalizing s with
  | nil => exact h0
  | cons op rest ih =>
    exact ih (applyOp s op) (applyOp_nonneg s op h0)

def demoOps : List Op :=
  [.deposit 1 { accountId := 1, amountCents := 500, description := none } 0 true,
   .withdraw 2 { accountId := 2, amountCents := 300, description := none } 1 true,
   .transfer 1 demoTransfer 2 true]

theorem balances_nonneg_witness :
    (applyOps demoState demoOps).accounts.Forall (fun a => 0 ≤ a.balance) :=
  List.forall_iff_forall_mem.mpr
    (balances_nonneg demoState demoOps (by decide) (by decide))

/-- C5: for an owned account and a positive amount, the withdraw
operation fails with `InsufficientFunds` exactly when the amount exceeds
the balance — in which case the state (balances and transaction log) is
unchanged — and otherwise (including the amount equal to the full
balance, hence the `≤`) it decreases the balance by the amount and
appends exactly one withdrawal-type transaction sourced at the account
with that amount. -/
theorem withdraw_insufficient_funds (s : BankState) (u : Nat) (r : AccountOpRequest)
    (now : Nat) (acc : Account)
    (hacc : findById s r.accountId = some acc) (hown : acc.userId = u)
    (hpos : 0 < r.amountCents) :
    ((withdrawBody s u r now true).1 = [OpError.insufficientFunds] ↔
      acc.balance < r.amountCents) ∧
    (acc.balance < r.amountCents → (withdrawBody s u r now true).2 = s) ∧
    (r.amountCents ≤ acc.balance →
      (withdrawBody s u r now true).1 = [] ∧
      balanceOf (withdrawBody s u r now true).2 acc.id =
        some (acc.balance - r.amountCents) ∧
      (withdrawBody s u r now true).2.transactions =
        { fromAccountId := some acc.id
          toAccountId := none
          amount := r.amountCents
          transactionType := "withdrawal"
          description := r.description.getD "Cash withdrawal"
          timestamp := now } :: s.transactions) := by
  have hid : acc.id = r.accountId := findAcc_eq_some_id hacc
  have haccid : findAcc s.accounts acc.id = some acc := by rw [hid]; exact hacc
  refine ⟨?_, ?_, ?_⟩
  · by_cases hb : acc.balance < r.amountCents
    · simp [withdrawBody, hacc, hown, hb]
    · simp [withdrawBody, hacc, hown, hb]
  · intro hb
    simp [withdrawBody, hacc, hown, hb]
  · intro hb
    have hb' : ¬ acc.balance < r.amountCents := Int.not_lt.mpr hb
    refine ⟨by simp [withdrawBody, hacc, hown, hb'], ?_,
      by simp [withdrawBody, hacc, hown, hb']⟩
    have hstate : (withdrawBody s u r now true).2 =
        { accounts := setBalance s.accounts acc.id (acc.balance - r.amountCents)
          transactions :=
            { fromAccountId := some acc.id
              toAccountId := none
              amount := r.amountCents
              transactionType := "withdrawal"
              description := r.description.getD "Cash withdrawal"
              timestamp := now } :: s.transactions } := by
      simp [withdrawBody, hacc, hown, hb']
    rw [hstate]
    simp only [balanceOf, findById]
    rw [findAcc_setBalance_self _ haccid]
    rfl

def wdReq : AccountOpRequest :=
  { accountId := 1, amountCents := 7000, description := none }

theorem withdraw_insufficient_funds_witness :
    (((withdrawBody demoState 1 wdReq 5 true).1 = [OpError.insufficientFunds] ↔
        accA.balance < 7000) ∧
      (accA.balance < 7000 → (withdrawBody demoState 1 wdReq 5 true).2 = demoState) ∧
      (7000 ≤ accA.balance →
        (withdrawBody demoState 1 wdReq 5 true).1 = [] ∧
        balanceOf (withdrawBody demoState 1 wdReq 5 true).2 accA.id =
          some (accA.balance - 7000) ∧
        (withdrawBody demoState 1 wdReq 5 true).2.transactions =
          { fromAccountId := some accA.id
            toAccountId := none
            amount := 7000
            transactionType := "withdrawal"
            description := "Cash withdrawal"
            timestamp := 5 } :: demoState.transactions)) :=
  withdraw_insufficient_funds demoState 1 wdReq 5 accA (by decide) rfl (by decide)

/-- C6: the deposit operation applies no frozen-account check: for any
existing owned account — frozen or not, since no hypothesis on
`acc.isFrozen` appears — a deposit of a positive amount succeeds,
increases that account's balance by the amount, and appends exactly one
deposit-type transaction with the account as destination and a null
source. -/
theorem deposit_no_frozen_check (s : BankState) (u : Nat) (r : AccountOpRequest)
    (now : Nat) (acc : Account)
    (hacc : findById s r.accountId = some acc) (hown : acc.userId = u)
    (hpos : 0 < r.amountCents) :
    (depositBody s u r now true).1 = [] ∧
    balanceOf (depositBody s u r now true).2 acc.id =
      some (acc.balance + r.amountCents) ∧
    (depositBody s u r now true).2.transactions =
      { fromAccountId := none
        toAccountId := some acc.id
        amount := r.amountCents
        transactionType := "deposit"
        description := r.description.getD "Cash deposit"
        timestamp := now } :: s.transactions := by
  have hid : acc.id = r.accountId := findAcc_eq_some_id hacc
  have haccid : findAcc s.accounts acc.id = some acc := by rw [hid]; exact hacc
  refine ⟨by simp [depositBody, hacc, hown], ?_, by simp [depositBody, hacc, hown]⟩
  have hstate : (depositBody s u r now true).2 =
      { accounts := setBalance s.accounts acc.id (acc.balance + r.amountCents)
        transactions :=
          { fromAccountId := none
            toAccountId := some acc.id
            amount := r.amountCents
            transactionType := "deposit"
            description := r.description.getD "Cash deposit"
            timestamp := now } :: s.transactions } := by
    simp [depositBody, hacc, hown]
  rw [hstate]
  simp only [balanceOf, findById]
  rw [findAcc_setBalance_self _ haccid]
  rfl

/-- A frozen account owned by user 3, used to exercise the absence of a
frozen check on deposits. -/
def accFrozen : Account :=
  { id := 3, userId := 3, accountNumber := "1000000003", accountType := "savings"
    balance := 700, isFrozen := true }

def frozenState : BankState := { accounts := [accFrozen], transactions := [] }

def depReq : AccountOpRequest :=
  { accountId := 3, amountCents := 100, description := none }

theorem deposit_no_frozen_check_witness :
    accFrozen.isFrozen = true ∧
    ((depositBody frozenState 3 depReq 7 true).1 = [] ∧
      balanceOf (depositBody frozenState 3 depReq 7 true).2 accFrozen.id =
        some (accFrozen.balance + 100) ∧
      (depositBody frozenState 3 depReq 7 true).2.transactions =
        { fromAccountId := none
          toAccountId := some accFrozen.id
          amount := 100
          transactionType := "deposit"
          description := "Cash deposit"
          timestamp := 7 } :: frozenState.transactions) :=
  ⟨rfl, deposit_no_frozen_check frozenState 3 depReq 7 accFrozen (by decide) rfl (by decide)⟩

/-- C10: each of the three operations re-checks ownership in its body:
when the selected source account exists but belongs to a different user
than the requester, the operation reports an invalid account and returns
the state unchanged — no balance moves and no transaction record is
created. -/
theorem ownership_required (s : BankState) (u : Nat) (now : Nat) (c : Bool) :
    (∀ (r : TransferRequest) (acc : Account),
      findById s r.fromAccountId = some acc → acc.userId ≠ u →
      transferBody s u r now c = ([OpError.invalidAccount], s)) ∧
    (∀ (r : AccountOpRequest) (acc : Account),
      findById s r.accountId = some acc → acc.userId ≠ u →
      depositBody s u r now c = ([OpError.invalidAccount], s)) ∧
    (∀ (r : AccountOpRequest) (acc : Account),
      findById s r.accountId = some acc → acc.userId ≠ u →
      withdrawBody s u r now c = ([OpError.invalidAccount], s)) :=
  ⟨fun r acc hacc hne => by simp [transferBody, hacc, hne],
   fun r acc hacc hne => by simp [depositBody, hacc, hne],
   fun r acc hacc hne => by simp [withdrawBody, hacc, hne]⟩

def foreignTransfer : TransferRequest :=
  { fromAccountId := 1, toAccountNumber := "1000000002", amountCents := 100
    description := none }

def foreignOp : AccountOpRequest :=
  { accountId := 1, amountCents := 100, description := none }

theorem ownership_required_witness :
    transferBody demoState 2 foreignTransfer 0 true = ([OpError.invalidAccount], demoState) ∧
    depositBody demoState 2 foreignOp 0 true = ([OpError.invalidAccount], demoState) ∧
    withdrawBody demoState 2 foreignOp 0 true = ([OpError.invalidAccount], demoState) :=
  ⟨(ownership_required demoState 2 0 true).1 foreignTransfer accA (by decide) (by decide),
   (ownership_required demoState 2 0 true).2.1 foreignOp accA (by decide) (by decide),
   (ownership_required demoState 2 0 true).2.2 foreignOp accA (by decide) (by decide)⟩

/-- The record a request creates matches the operation kind: a deposit
record has a null source and the account as destination, a withdrawal
record the reverse, and a transfer record has both references set. -/
def txMatchesOp : Op → Transaction → Prop
  | .deposit _ _ _ _, tx =>
    tx.transactionType = "deposit" ∧ tx.fromAccountId = none ∧ ∃ i, tx.toAccountId = some i
  | .withdraw _ _ _ _, tx =>
    tx.transactionType = "withdrawal" ∧ tx.toAccountId = none ∧ ∃ i, tx.fromAccountId = some i
  | .transfer _ _ _ _, tx =>
    tx.transactionType = "transfer" ∧ (∃ i, tx.fromAccountId = some i) ∧
      ∃ j, tx.toAccountId = some j

/-- C7: every request either creates no transaction record at all, or
prepends exactly one record whose amount is positive and whose type and
source/destination references match the operation that created it:
source null and destination set for deposits, source set and destination
null for withdrawals, both set for transfers. -/
theorem transaction_record_wellformed (s : BankState) (op : Op) :
    (applyOp s op).transactions = s.transactions ∨
    ∃ tx, (applyOp s op).transactions = tx :: s.transactions ∧
      0 < tx.amount ∧ txMatchesOp op tx := by
  cases op with
  | deposit u r now c =>
    rcases depositStep_cases s u r now c with ⟨_, hstate⟩ |
      ⟨_, _, acc, _, _, hlo, _, hstate⟩
    · exact Or.inl (by simp only [applyOp]; rw [hstate])
    · refine Or.inr ⟨_, by simp only [applyOp]; rw [hstate],
        by show 0 < r.amountCents; omega, ?_⟩
      exact ⟨rfl, rfl, acc.id, rfl⟩
  | withdraw u r now c =>
    rcases withdrawStep_cases s u r now c with ⟨_, hstate⟩ |
      ⟨_, _, acc, _, _, hlo, _, _, hstate⟩
    · exact Or.inl (by simp only [applyOp]; rw [hstate])
    · refine Or.inr ⟨_, by simp only [applyOp]; rw [hstate],
        by show 0 < r.amountCents; omega, ?_⟩
      exact ⟨rfl, rfl, acc.id, rfl⟩
  | transfer u r now c =>
    rcases transferStep_cases s u r now c with ⟨_, hstate⟩ |
      ⟨_, _, src, dst, _, _, _, _, _, _, hlo, _, _, hstate⟩
    · exact Or.inl (by simp only [applyOp]; rw [hstate])
    · refine Or.inr ⟨_, by simp only [applyOp]; rw [hstate],
        by show 0 < r.amountCents; omega, ?_⟩
      exact ⟨rfl, ⟨src.id, rfl⟩, dst.id, rfl⟩

/-- C8: an account's transaction history is exactly the transactions in
which the account is the source together with those in which it is the
destination (stated both as a permutation and as a membership
characterization), ordered by timestamp descending, and computing it
twice on the same state without intervening writes yields identical
ordered results. -/
theorem transaction_history_spec (s : BankState) (accId : Nat) :
    (∀ tx, tx ∈ getAllTransactions s accId ↔
      (tx ∈ s.transactions ∧
        (tx.fromAccountId = some accId ∨ tx.toAccountId = some accId))) ∧
    (getAllTransactions s accId).Perm
      (s.transactions.filter (fun t => t.fromAccountId == some accId) ++
        s.transactions.filter (fun t => t.toAccountId == some accId)) ∧
    List.Pairwise (fun a b : Transaction => b.timestamp ≤ a.timestamp)
      (getAllTransactions s accId) ∧
    getAllTransactions s accId = getAllTransactions s accId := by
  refine ⟨?_, ?_, ?_, rfl⟩
  · intro tx
    unfold getAllTransactions
    simp only [List.mem_mergeSort, List.mem_append, List.mem_filter]
    constructor
    · rintro (⟨hmem, hp⟩ | ⟨hmem, hp⟩)
      · exact ⟨hmem, Or.inl (by simpa using hp)⟩
      · exact ⟨hmem, Or.inr (by simpa using hp)⟩
    · rintro ⟨hmem, hp | hp⟩
      · exact Or.inl ⟨hmem, by simpa using hp⟩
      · exact Or.inr ⟨hmem, by simpa using hp⟩
  · exact List.mergeSort_perm _ _
  · refine List.Pairwise.imp ?_ (List.sorted_mergeSort ?_ ?_ _)
    · intro a b h
      exact of_decide_eq_true h
    · intro a b c hab hbc
      simp only [decide_eq_true_eq] at hab hbc ⊢
      omega
    · intro a b
      simp only [Bool.or_eq_true, decide_eq_true_eq]
      omega

theorem digitChar_isDigit : ∀ d : Fin 10, (Char.ofNat (48 + d.val)).isDigit = true := by
  decide

theorem mkAccountNum_length (draw : Nat → Fin 10) : (mkAccountNum draw).length = 10 := by
  simp [mkAccountNum, String.length]

theorem mkAccountNum_digits (draw : Nat → Fin 10) :
    ∀ c ∈ (mkAccountNum draw).data, c.isDigit = true := by
  intro c hc
  simp only [mkAccountNum, String.data, List.mem_map, List.mem_range] at hc
  obtain ⟨i, _, rfl⟩ := hc
  exact digitChar_isDigit (draw i)

/-- C9: whenever the generation loop returns an account number, that
number is a string of exactly 10 decimal digits, it differs from the
account number of every account existing at the time of the uniqueness
check (the loop retries on collision), and therefore inserting it
preserves distinctness of the live account numbers. -/
theorem generate_account_number_spec (s : BankState) (draws : List (Nat → Fin 10))
    (n : String) (h : generateAccountNumber s draws = some n) :
    n.length = 10 ∧ (∀ c ∈ n.data, c.isDigit = true) ∧
    (∀ a ∈ s.accounts, a.accountNumber ≠ n) ∧
    ((s.accounts.map (fun a => a.accountNumber)).Nodup →
      (n :: s.accounts.map (fun a => a.accountNumber)).Nodup) := by
  induction draws with
  | nil => cases h
  | cons draw rest ih =>
    rw [generateAccountNumber] at h
    cases hfind : findByNumber s (mkAccountNum draw) with
    | some a =>
      rw [hfind] at h
      exact ih h
    | none =>
      rw [hfind] at h
      cases h
      have hfresh : ∀ a ∈ s.accounts, a.accountNumber ≠ mkAccountNum draw := by
        intro a ha he
        have := List.find?_eq_none.mp hfind a ha
        simp [he] at this
      refine ⟨mkAccountNum_length draw, mkAccountNum_digits draw, hfresh, ?_⟩
      intro hnd
      refine List.nodup_cons.mpr ⟨?_, hnd⟩
      intro hmem
      obtain ⟨a, ha, hae⟩ := List.mem_map.mp hmem
      exact hfresh a ha hae

theorem generate_account_number_witness :
    ("0000000000" : String).length = 10 ∧
    (∀ c ∈ ("0000000000" : String).data, c.isDigit = true) ∧
    (∀ a ∈ demoState.accounts, a.accountNumber ≠ "0000000000") ∧
    ((demoState.accounts.map (fun a => a.accountNumber)).Nodup →
      ("0000000000" :: demoState.accounts.map (fun a => a.accountNumber)).Nodup) :=
  generate_account_number_spec demoState [fun _ => 0] "0000000000" (by decide)

/-- No form-validation path ever reports the body's source-frozen error:
a frozen source never appears among the select-field choices, so it is
reported as an invalid choice instead. -/
theorem sourceFrozen_not_mem_transferFormErrors (s : BankState) (u : Nat)
    (r : TransferRequest) :
    ∀ e ∈ transferFormErrors s u r, e ≠ OpError.sourceFrozen := by
  unfold transferFormErrors accountChoiceErrors toAccountFieldErrors amountFieldErrors
  intro e he
  simp only [List.mem_append] at he
  rcases he with (h | h) | h
  · split at h <;> simp_all
  · split at h
    · simp_all
    · simp only [List.mem_append] at h
      rcases h with h | h
      · split at h <;> simp_all
      · split at h
        · simp_all
        · split at h
          · simp_all
          · split at h <;> simp_all
  · split at h
    · simp_all
    · split at h <;> simp_all

/-- Stated from the amended claim's words: the route body's reported
error is determined by the first failing check in the order (1) source
not frozen, (2) destination resolves from its account number, (3)
destination not frozen, (4) source ≠ destination, (5) amount ≤ source
balance (no positivity check on the amount appears in the body), and a
run passing all checks succeeds exactly when the commit does. -/
def claimedBodyErrors (s : BankState) (r : TransferRequest) (src : Account)
    (c : Bool) : List OpError :=
  if src.isFrozen then [.sourceFrozen]
  else
    match findByNumber s r.toAccountNumber with
    | none => [.destinationNotFound]
    | some dst =>
      if dst.isFrozen then [.destinationFrozen]
      else if src.id = dst.id then [.selfTransferNotAllowed]
      else if src.balance < r.amountCents then [.insufficientFunds]
      else if c then [] else [.persistenceError]

/-- C4 (amended): the claimed precondition order holds for the route
body alone — for an owned source, its reported error equals the
first-failing-check order source-frozen, destination-not-found,
destination-frozen, self-transfer, insufficient-funds — but the full
request path validates the form first, and because a frozen source is
excluded from the select-field choices, a transfer from a frozen source
is rejected by form validation (state unchanged) and `SourceFrozen` is
never the reported error of the pipeline. -/
theorem transfer_error_order (s : BankState) (u : Nat) (r : TransferRequest)
    (now : Nat) (c : Bool) (src : Account)
    (hnd : (s.accounts.map (fun a => a.id)).Nodup)
    (hsrc : findById s r.fromAccountId = some src) (hown : src.userId = u) :
    (src.isFrozen = true →
      OpError.sourceFrozen ∉ (transferStep s u r now c).1 ∧
      (transferStep s u r now c).1 ≠ [] ∧
      (transferStep s u r now c).2 = s) ∧
    (transferBody s u r now c).1 = claimedBodyErrors s r src c := by
  constructor
  · intro hfrozen
    have hform : OpError.sourceFrozen ∉ transferFormErrors s u r := fun hm =>
      sourceFrozen_not_mem_transferFormErrors s u r _ hm rfl
    unfold transferStep
    split
    · exact ⟨by simp, by simp, rfl⟩
    · split
      · rename_i hactive hfe
        exfalso
        obtain ⟨hmem, _, _⟩ := transferFormErrors_eq_nil hfe
        simp only [List.mem_map] at hmem
        obtain ⟨a, hain, haid⟩ := hmem
        have hfilter := List.of_mem_filter hain
        have hamem : a ∈ s.accounts := List.mem_of_mem_filter hain
        have hsrcmem : src ∈ s.accounts := mem_of_findAcc hsrc
        have hasrc : a = src :=
          eq_of_mem_nodup_id hnd hamem hsrcmem
            (by rw [haid, ← findAcc_eq_some_id hsrc])
        rw [hasrc] at hfilter
        simp [Bool.and_eq_true, hfrozen] at hfilter
      · rename_i hactive hfe
        exact ⟨hform, hfe, rfl⟩
  · by_cases hfz : src.isFrozen
    · simp [transferBody, claimedBodyErrors, hsrc, hown, hfz]
    · cases hdst : findByNumber s r.toAccountNumber with
      | none => simp [transferBody, claimedBodyErrors, hsrc, hown, hfz, hdst]
      | some dst =>
        by_cases hdfz : dst.isFrozen
        · simp [transferBody, claimedBodyErrors, hsrc, hown, hfz, hdst, hdfz]
        · by_cases hself : src.id = dst.id
          · simp [transferBody, claimedBodyErrors, hsrc, hown, hfz, hdst, hdfz, hself]
          · by_cases hbal : src.balance < r.amountCents
            · simp [transferBody, claimedBodyErrors, hsrc, hown, hfz, hdst, hdfz,
                hself, hbal]
            · cases c <;>
                simp [transferBody, claimedBodyErrors, hsrc, hown, hfz, hdst, hdfz,
                  hself, hbal]

/-- Fixtures for the ordering counterexample: user 1 owns a frozen
account 1 and an active account 2; user 2 owns the active destination
account 3. -/
def cexSrc : Account :=
  { id := 1, userId := 1, accountNumber := "1111111111", accountType := "savings"
    balance := 5000, isFrozen := true }

def cexActive : Account :=
  { id := 2, userId := 1, accountNumber := "2222222222", accountType := "savings"
    balance := 100, isFrozen := false }

def cexDest : Account :=
  { id := 3, userId := 2, accountNumber := "3333333333", accountType := "Current"
    balance := 1000, isFrozen := false }

def cexState : BankState :=
  { accounts := [cexSrc, cexActive, cexDest], transactions := [] }

def cexReq : TransferRequest :=
  { fromAccountId := 1, toAccountNumber := "3333333333", amountCents := 100
    description := none }

/-- Counterexample to C4 as stated: the source account is frozen — so by
the claim the first failing check is (1) and the reported error must be
`SourceFrozen` — and every later check of the claim's list passes
(destination resolves and is not frozen, the accounts differ, and
0 < 100 ≤ 5000), yet the request path reports the form-level invalid
choice error and never `SourceFrozen`. -/
theorem transfer_error_order_counterexample :
    (findById cexState 1 = some cexSrc ∧ cexSrc.isFrozen = true) ∧
    (findByNumber cexState "3333333333" = some cexDest ∧
      cexDest.isFrozen = false ∧ cexSrc.id ≠ cexDest.id ∧
      (0 : Int) < 100 ∧ (100 : Int) ≤ cexSrc.balance) ∧
    (transferStep cexState 1 cexReq 0 true).1 = [OpError.notAValidChoice] ∧
    OpError.sourceFrozen ∉ (transferStep cexState 1 cexReq 0 true).1 := by
  decide

theorem transfer_error_order_witness :
    (cexSrc.isFrozen = true →
      OpError.sourceFrozen ∉ (transferStep cexState 1 cexReq 0 true).1 ∧
      (transferStep cexState 1 cexReq 0 true).1 ≠ [] ∧
      (transferStep cexState 1 cexReq 0 true).2 = cexState) ∧
    (transferBody cexState 1 cexReq 0 true).1 =
      claimedBodyErrors cexState cexReq cexSrc true :=
  transfer_error_order cexState 1 cexReq 0 true cexSrc (by decide) (by decide) rfl

end Banking
